import Mathlib

/-!
Shallow embedding of the per-symbol analysis-and-execution engine of
src/Nyse_Lse_trading_bot_001.py.

Modelling conventions:
- Python floats are modelled by the rationals; the float square root used by
  the Bollinger standard deviation is modelled by Rat.sqrt, which agrees with
  it exactly on perfect-square variances (the only cases evaluated here).
- IEEE special values reachable in the RSI computation are modelled
  explicitly: avgGain/avgLoss with avgLoss = 0 yields RSI = 100 when
  avgGain > 0 (the +inf path collapses to 100) and an undefined value (NaN,
  modelled as Option.none) when avgGain = 0.
- Wall-clock instants (datetime.now, deal close times) are rationals counting
  seconds; deal timestamps from the broker (time_msc) count milliseconds.
- The MetaTrader gateway is an external collaborator; one analysis cycle sees
  a fixed tuple of its responses (history, rates, positions, tick, order
  result), collected in the Gateway structure, and the engine is a pure
  function of those responses and the per-symbol state.
-/

-- === Configuration constants (lines 22-36 of the source) ===

def ATR_PERIOD : Nat := 14

def ATR_SL_MULTIPLIER : ℚ := 1.5

def ATR_TP_MULTIPLIER : ℚ := 2.0

def SERVER_TIMEZONE_OFFSET_HOURS : ℚ := 2

-- MetaTrader constants used by the engine
def TRADE_RETCODE_DONE : Nat := 10009

def ORDER_FILLING_FOK : Nat := 0

def ORDER_FILLING_IOC : Nat := 1

-- === Data model ===

/-- One OHLC bar as used by the engine (only high, low, close are read). -/
structure Bar where
  high : ℚ
  low : ℚ
  close : ℚ
deriving DecidableEq

/-- Per-symbol mutable state (SYMBOL_STATES entries, lines 102-107). -/
structure SymbolState where
  trades_executed : Nat
  consecutive_losses : Nat
  last_trade_close_time : Option ℚ
  last_skipped_reason : Option String
deriving DecidableEq

/-- Per-symbol configuration row (lines 95-98). -/
structure SymbolConfig where
  base_volume : ℚ
  daily_bias : String
deriving DecidableEq

/-- A live quote as returned by symbol_info_tick. -/
structure Tick where
  ask : ℚ
  bid : ℚ
deriving DecidableEq

/-- A closed deal from history_deals_get; entry = 1 marks a closing deal. -/
structure Deal where
  symbol : String
  entry : Nat
  time_msc : ℚ
deriving DecidableEq

/-- An open position as reported by positions_get (contents unused). -/
structure OpenPosition where
  ticket : Nat
deriving DecidableEq

/-- The filling-mode capability record from symbol_info. -/
structure SymbolInfo where
  filling_mode : Nat
deriving DecidableEq

/-- The order_send result (retcode and comment). -/
structure OrderResult where
  retcode : Nat
  comment : String
deriving DecidableEq

/-- The gateway responses one analysis cycle can observe. -/
structure Gateway where
  history : Option (List Deal)
  rates : Option (List Bar)
  positions : List OpenPosition
  tick : Option Tick
  info : Option SymbolInfo
  order_result : Option OrderResult
deriving DecidableEq

-- === Risk Sizer (calculate_sl_tp, lines 208-219) ===

/-- Round half to even (the Python round builtin) at integer scale. -/
def roundHalfEven (x : ℚ) : ℤ :=
  let f := ⌊x⌋
  let frac := x - f
  if frac < 1/2 then f
  else if 1/2 < frac then f + 1
  else if f % 2 = 0 then f else f + 1

/-- round(x, 5) of the Python source. -/
def round5 (x : ℚ) : ℚ := (roundHalfEven (x * 100000) : ℚ) / 100000

/-- Lines 208-219: SL/TP levels from entry price, direction and ATR. -/
def calculate_sl_tp (price : ℚ) (trade_type : String) (atr_value : ℚ) : ℚ × ℚ :=
  let sl_dist := atr_value * ATR_SL_MULTIPLIER
  let tp_dist := atr_value * ATR_TP_MULTIPLIER
  if trade_type = "BUY" then
    (round5 (price - sl_dist), round5 (price + tp_dist))
  else
    (round5 (price + sl_dist), round5 (price - tp_dist))

-- === Cooldown check (is_enough_time_since_last_trade, lines 187-206) ===

/-- First-encountered deal with the maximal time_msc: the head of the stable
descending sort by time_msc taken at line 198. -/
def latestDeal : List Deal → Option Deal
  | [] => none
  | d :: ds =>
    match latestDeal ds with
    | none => some d
    | some m => if m.time_msc > d.time_msc then some m else some d

/-- Lines 194-200: the lazily backfilled close time of the most recent closing
deal for the symbol over the trailing day, shifted to local time.  Returns
none when the history call fails or finds no closing deal for the symbol. -/
def lookupLastClose (symbol : String) (history : Option (List Deal)) : Option ℚ :=
  match history with
  | none => none
  | some h =>
    match latestDeal (h.filter (fun d => decide (d.symbol = symbol) && decide (d.entry = 1))) with
    | none => none
    | some latest => some (latest.time_msc / 1000 - SERVER_TIMEZONE_OFFSET_HOURS * 3600)

/-- Result of one cooldown check: the possibly backfilled state, the skip
flag and minutes reading returned at lines 205-206, and whether the deal
history was queried during this check (the call at line 194 ran). -/
structure CooldownResult where
  state : SymbolState
  skip : Bool
  mins : ℚ
  queriedHistory : Bool
deriving DecidableEq

/-- Lines 187-206: the 10-minute cooldown check after a trade close. -/
def is_enough_time_since_last_trade (symbol : String) (now : ℚ)
    (history : Option (List Deal)) (state : SymbolState) : CooldownResult :=
  let queried := state.last_trade_close_time.isNone
  let state1 :=
    match state.last_trade_close_time with
    | none =>
      match lookupLastClose symbol history with
      | none => state
      | some t => { state with last_trade_close_time := some t }
    | some _ => state
  match state1.last_trade_close_time with
  | some t =>
    let diff := (now - t) / 60
    if diff < 10 then ⟨state1, true, diff, queried⟩
    else ⟨state1, false, 0, queried⟩
  | none => ⟨state1, false, 0, queried⟩

-- === Execution Coordinator (execute_trade, lines 221-256) ===

/-- The order request constructed at lines 230-243. -/
structure OrderRequest where
  symbol : String
  order_type : String
  price : ℚ
  volume : ℚ
  sl : ℚ
  tp : ℚ
  deviation : Nat
  magic : Nat
  type_filling : Nat
deriving DecidableEq

/-- Result of one execute_trade call: the updated state, the request it
submitted, the number of trade-execution notifications emitted, and the
number of order_send submissions performed (always exactly one). -/
structure ExecResult where
  state : SymbolState
  request : OrderRequest
  notifications : Nat
  submissions : Nat
deriving DecidableEq

/-- Lines 224-228: fill-mode selection from the capability bitmask. -/
def selectFilling (info : Option SymbolInfo) : Nat :=
  match info with
  | none => ORDER_FILLING_FOK
  | some i =>
    if i.filling_mode &&& 2 ≠ 0 then ORDER_FILLING_IOC
    else ORDER_FILLING_FOK

/-- Lines 221-256: build and submit one market order and interpret the
gateway return code.  On the success retcode the trade counter increments
and one execution notification is emitted; on any other result (including a
null result) the state is untouched and no notification is sent. -/
def execute_trade (symbol trade_type : String) (price volume sl tp atr_used : ℚ)
    (info : Option SymbolInfo) (order_result : Option OrderResult)
    (state : SymbolState) : ExecResult :=
  let _ := atr_used
  let request : OrderRequest :=
    ⟨symbol, trade_type, price, volume, sl, tp, 20, 1001, selectFilling info⟩
  match order_result with
  | some res =>
    if res.retcode = TRADE_RETCODE_DONE then
      ⟨{ state with trades_executed := state.trades_executed + 1 }, request, 1, 1⟩
    else ⟨state, request, 0, 1⟩
  | none => ⟨state, request, 0, 1⟩

-- === Indicator Engine (lines 280-303) ===

/-- Trailing window of the last k elements (the rolling window ending at the
last row of the dataframe). -/
def lastWindow (k : Nat) (l : List ℚ) : List ℚ := l.drop (l.length - k)

/-- Arithmetic mean of a list (rolling(k).mean() at the last row when applied
to a full window of length k). -/
def listMean (l : List ℚ) : ℚ := l.sum / l.length

/-- Sample variance with one delta degree of freedom (pandas rolling std
squares). -/
def sampleVar (l : List ℚ) : ℚ :=
  (l.map (fun x => (x - listMean l) ^ 2)).sum / (l.length - 1)

/-- True-range values of the bars after the first (lines 287-289); prev is
the previous bar. -/
def trRest (prev : Bar) : List Bar → List ℚ
  | [] => []
  | b :: bs =>
    max (b.high - b.low) (max |b.high - prev.close| |b.low - prev.close|) :: trRest b bs

/-- Lines 286-289: the per-bar true range series.  On the first bar the
previous close is NaN and the row-wise max skips it, leaving high - low. -/
def trList : List Bar → List ℚ
  | [] => []
  | b :: bs => (b.high - b.low) :: trRest b bs

/-- Line 290: ATR at the last row, the mean of the last ATR_PERIOD true
ranges.  Meaningful when at least ATR_PERIOD bars exist, which the caller
guarantees via the 50-bar minimum. -/
def atrLast (bars : List Bar) : ℚ := listMean (lastWindow ATR_PERIOD (trList bars))

/-- Lines 293-296: Bollinger middle band at the last row. -/
def bbMa (closes : List ℚ) : ℚ := listMean (lastWindow 20 closes)

/-- Lines 293-296: Bollinger standard deviation at the last row.  The float
square root is modelled by Rat.sqrt (exact on perfect squares). -/
def bbStd (closes : List ℚ) : ℚ := Rat.sqrt (sampleVar (lastWindow 20 closes))

/-- Line 295: upper Bollinger band at the last row. -/
def bbUpper (closes : List ℚ) : ℚ := bbMa closes + 2 * bbStd closes

/-- Line 296: lower Bollinger band at the last row. -/
def bbLower (closes : List ℚ) : ℚ := bbMa closes - 2 * bbStd closes

/-- Backward-weighted sum: wsum a [x0, x1, ...] = x0 + (1-a)*x1 + (1-a)^2*x2
+ ... .  Applied to a reversed series this is the numerator of the
adjust=True exponentially weighted mean of pandas. -/
def wsum (a : ℚ) : List ℚ → ℚ
  | [] => 0
  | x :: t => x + (1 - a) * wsum a t

/-- ewm(alpha=a).mean() of pandas (adjust=True) at the last row:
sum of (1-a)^i * x(n-1-i) over i, divided by sum of (1-a)^i. -/
def ewmLast (a : ℚ) (xs : List ℚ) : ℚ :=
  wsum a xs.reverse / wsum a (List.replicate xs.length 1)

/-- Line 299: successive close-to-close deltas (close.diff() without its
leading NaN). -/
def deltasOf (closes : List ℚ) : List ℚ :=
  List.zipWith (fun b c => b - c) closes.tail closes

/-- Line 300 before smoothing: delta.where(delta > 0, 0).  The leading NaN
delta fails the comparison and becomes 0. -/
def gainsOf (closes : List ℚ) : List ℚ :=
  0 :: (deltasOf closes).map (fun d => if d > 0 then d else 0)

/-- Line 301 before smoothing: (-delta.where(delta < 0, 0)). -/
def lossesOf (closes : List ℚ) : List ℚ :=
  0 :: (deltasOf closes).map (fun d => if d < 0 then -d else 0)

/-- Line 300: the Wilder-smoothed average gain at the last row. -/
def avgGainLast (closes : List ℚ) : ℚ := ewmLast (1/14) (gainsOf closes)

/-- Line 301: the Wilder-smoothed average loss at the last row. -/
def avgLossLast (closes : List ℚ) : ℚ := ewmLast (1/14) (lossesOf closes)

/-- Lines 299-303: RSI at the last row.  none models NaN: either fewer than
14 observations (min_periods) or the 0/0 division when both smoothed
averages vanish.  When only avgLoss vanishes the float quotient is +inf and
100 - 100/(1+inf) collapses to 100. -/
def rsiLast (closes : List ℚ) : Option ℚ :=
  if closes.length < 14 then none
  else
    let g := avgGainLast closes
    let l := avgLossLast closes
    if l = 0 then (if g = 0 then none else some 100)
    else some (100 - 100 / (1 + g / l))

-- === Signal Generator (lines 305-313) ===

/-- The discrete trading signal. -/
inductive Signal where
  | BUY
  | SELL
  | NONE
deriving DecidableEq

/-- Lines 309-313: threshold rule on the latest indicator snapshot. -/
def deriveSignal (rsi low lower high upper : ℚ) : Signal :=
  if rsi < 35 ∧ low ≤ lower then Signal.BUY
  else if rsi > 65 ∧ high ≥ upper then Signal.SELL
  else Signal.NONE

/-- Lines 309-313 with the NaN case: a NaN RSI fails both threshold
comparisons, so the signal stays NONE. -/
def strategySignal (rsi : Option ℚ) (low lower high upper : ℚ) : Signal :=
  match rsi with
  | none => Signal.NONE
  | some r => deriveSignal r low lower high upper

/-- The signal run_symbol_analysis derives from a bar window: thresholds
evaluated on the last bar of the window (df.iloc[-1]).  The default bar fed
to getD is unreachable because callers guarantee at least 50 bars. -/
def signalOfBars (bars : List Bar) : Signal :=
  let closes := bars.map Bar.close
  let last := bars.getLast?.getD ⟨0, 0, 0⟩
  strategySignal (rsiLast closes) last.low (bbLower closes) last.high (bbUpper closes)

-- === Analysis engine (run_symbol_analysis, lines 259-335) ===

/-- Observable outcome of one run_symbol_analysis call: the updated state,
the signal if the strategy block was reached (none when the run returned
before line 307), the submitted order if any, and the notification and
order_send counts. -/
structure RunResult where
  state : SymbolState
  signalComputed : Option Signal
  submitted : Option OrderRequest
  notifications : Nat
  submissions : Nat
deriving DecidableEq

/-- Lines 259-335: one per-symbol analysis-and-execution pass, as a pure
function of the configuration, the gateway responses of this cycle, the
current wall-clock instant and the per-symbol state. -/
def run_symbol_analysis (symbol : String) (config : SymbolConfig) (gw : Gateway)
    (now : ℚ) (state : SymbolState) : RunResult :=
  let direction := config.daily_bias
  if direction = "NONE" then
    ⟨{ state with last_skipped_reason := some "Daily Bias NONE" }, none, none, 0, 0⟩
  else
    let cd := is_enough_time_since_last_trade symbol now gw.history state
    if cd.skip then
      ⟨{ cd.state with
          last_skipped_reason := some ("Cooldown: " ++ toString (10 - cd.mins) ++ "m left") },
        none, none, 0, 0⟩
    else
      match gw.rates with
      | none => ⟨cd.state, none, none, 0, 0⟩
      | some bars =>
        if bars.length < 50 then ⟨cd.state, none, none, 0, 0⟩
        else
          let atr_value := atrLast bars
          let signal := signalOfBars bars
          match gw.positions with
          | _ :: _ =>
            ⟨{ cd.state with last_skipped_reason := some "Position Open" }, some signal, none, 0, 0⟩
          | [] =>
            match gw.tick with
            | none => ⟨cd.state, some signal, none, 0, 0⟩
            | some tick =>
              if signal = Signal.NONE then ⟨cd.state, some signal, none, 0, 0⟩
              else
                let vol := config.base_volume
                let price := if signal = Signal.BUY then tick.ask else tick.bid
                let sltp := calculate_sl_tp price
                  (if signal = Signal.BUY then "BUY" else "SELL") atr_value
                if signal = Signal.BUY ∧ direction ∈ ["BUY", "BOTH"] then
                  let e := execute_trade symbol "BUY" price vol sltp.1 sltp.2 atr_value
                    gw.info gw.order_result cd.state
                  ⟨e.state, some signal, some e.request, e.notifications, e.submissions⟩
                else if signal = Signal.SELL ∧ direction ∈ ["SELL", "BOTH"] then
                  let e := execute_trade symbol "SELL" price vol sltp.1 sltp.2 atr_value
                    gw.info gw.order_result cd.state
                  ⟨e.state, some signal, some e.request, e.notifications, e.submissions⟩
                else
                  ⟨cd.state, some signal, none, 0, 0⟩

-- === Concrete evaluation inputs ===

/-- A 50-bar window: one bar at 100 followed by 49 degenerate flat bars at 0.
The last 14 true ranges vanish (ATR = 0), the last 20 closes are constant
(zero-width Bollinger bands), and the single downward close-to-close delta
drives RSI to 0, so the strategy emits BUY with a zero ATR. -/
def c1Bars : List Bar := ⟨100, 100, 100⟩ :: List.replicate 49 ⟨0, 0, 0⟩

/-- Gateway responses for the c1Bars cycle: no trade history, the bars above,
no open position, a live quote, and an accepting order result. -/
def c1Gateway : Gateway := ⟨none, some c1Bars, [], some ⟨50, 49⟩, none, some ⟨10009, "done"⟩⟩

/-- Fifty constant closes: every close-to-close delta is zero, so both
smoothed averages vanish. -/
def c9Closes : List ℚ := List.replicate 50 100

/-- Fifty flat bars, enough for the indicator stage to run. -/
def w6Bars : List Bar := List.replicate 50 ⟨0, 0, 0⟩

/-- A 50-bar window whose single upward jump and flat tail drive RSI to 100
with the high on the upper band: the strategy emits SELL. -/
def w10Bars : List Bar := ⟨0, 0, 0⟩ :: List.replicate 49 ⟨100, 100, 100⟩

set_option maxRecDepth 8000

-- === Helper lemmas ===

/-- Unfolding of the BUY branch of the Risk Sizer. -/
theorem calculate_sl_tp_buy (p a : ℚ) :
    calculate_sl_tp p "BUY" a
      = (round5 (p - a * ATR_SL_MULTIPLIER), round5 (p + a * ATR_TP_MULTIPLIER)) := rfl

/-- Unfolding of the SELL (non-BUY) branch of the Risk Sizer. -/
theorem calculate_sl_tp_sell (p a : ℚ) :
    calculate_sl_tp p "SELL" a
      = (round5 (p + a * ATR_SL_MULTIPLIER), round5 (p - a * ATR_TP_MULTIPLIER)) := rfl

/-- With a cached close time the skip flag is exactly the 10-minute test of
line 205. -/
theorem cooldown_skip_of_set (sym : String) (now t : ℚ) (hist : Option (List Deal))
    (n m : Nat) (r : Option String) :
    (is_enough_time_since_last_trade sym now hist ⟨n, m, some t, r⟩).skip
      = decide ((now - t) / 60 < 10) := by
  by_cases hc : (now - t) / 60 < 10 <;>
    simp [is_enough_time_since_last_trade, hc]

/-- The cooldown check can only touch last_trade_close_time; the other state
fields pass through unchanged. -/
theorem cooldown_preserves_fields (sym : String) (now : ℚ) (hist : Option (List Deal))
    (st : SymbolState) :
    (is_enough_time_since_last_trade sym now hist st).state.trades_executed
        = st.trades_executed ∧
    (is_enough_time_since_last_trade sym now hist st).state.consecutive_losses
        = st.consecutive_losses ∧
    (is_enough_time_since_last_trade sym now hist st).state.last_skipped_reason
        = st.last_skipped_reason := by
  unfold is_enough_time_since_last_trade
  repeat' first
    | split
    | simp_all

/-- Every execute_trade call performs exactly one order_send submission. -/
theorem execute_trade_submissions (sym ty : String) (price vol sl tp atr : ℚ)
    (info : Option SymbolInfo) (res : Option OrderResult) (st : SymbolState) :
    (execute_trade sym ty price vol sl tp atr info res st).submissions = 1 := by
  unfold execute_trade
  cases res with
  | none => rfl
  | some r =>
    by_cases h : r.retcode = TRADE_RETCODE_DONE <;> simp [h]

/-- One analysis pass submits at most one order. -/
theorem run_submissions_le_one (sym : String) (cfg : SymbolConfig) (gw : Gateway)
    (now : ℚ) (st : SymbolState) :
    (run_symbol_analysis sym cfg gw now st).submissions ≤ 1 := by
  unfold run_symbol_analysis
  repeat' first
    | split
    | simp [execute_trade_submissions]

/-- The SELL signal of the w10Bars window, evaluated. -/
theorem w10Bars_signal : signalOfBars w10Bars = Signal.SELL := by
  norm_num [signalOfBars, w10Bars, strategySignal, deriveSignal, rsiLast, avgGainLast,
    avgLossLast, ewmLast, gainsOf, lossesOf, deltasOf, wsum, bbLower, bbUpper, bbMa,
    bbStd, sampleVar, lastWindow, listMean, List.replicate, List.zipWith]

-- === Claim theorems ===

/-- C1: the claim asserts that every order submitted by run_symbol_analysis
has a strictly positive ATR behind its stop-loss and take-profit distances.
The code enforces no such guard: on the c1Bars window the ATR of the last
bar is exactly 0, the strategy still emits BUY, and the engine submits an
order whose stop-loss and take-profit coincide with the entry price
(degenerate zero-distance stops). -/
theorem atr_guard_missing :
    atrLast c1Bars = 0 ∧
    (run_symbol_analysis "UK100" ⟨1, "BUY"⟩ c1Gateway 0 ⟨0, 0, none, none⟩).submitted
      = some ⟨"UK100", "BUY", 50, 1, 50, 50, 20, 1001, ORDER_FILLING_FOK⟩ := by
  have hatr : atrLast c1Bars = 0 := by
    norm_num [atrLast, c1Bars, trList, trRest, lastWindow, listMean, List.replicate,
      ATR_PERIOD]
  have hsig : signalOfBars c1Bars = Signal.BUY := by
    norm_num [signalOfBars, c1Bars, strategySignal, deriveSignal, rsiLast, avgGainLast,
      avgLossLast, ewmLast, gainsOf, lossesOf, deltasOf, wsum, bbLower, bbUpper, bbMa,
      bbStd, sampleVar, lastWindow, listMean, List.replicate, List.zipWith]
  refine ⟨hatr, ?_⟩
  have hcd : is_enough_time_since_last_trade "UK100" 0 none ⟨0, 0, none, none⟩
      = ⟨⟨0, 0, none, none⟩, false, 0, true⟩ := rfl
  have hbuy : ("BUY" : String) ≠ "NONE" := by decide
  have hlen : ¬ c1Bars.length < 50 := by decide
  simp only [run_symbol_analysis, c1Gateway, hcd, if_neg hbuy]
  norm_num [hsig, hatr, hlen, execute_trade, selectFilling, TRADE_RETCODE_DONE,
    calculate_sl_tp, round5, roundHalfEven, ATR_SL_MULTIPLIER, ATR_TP_MULTIPLIER,
    ORDER_FILLING_FOK]
  rfl

/-- C2: for every entry price p and ATR a, the Risk Sizer returns
stopLoss = p - 1.5 a and takeProfit = p + 2.0 a for BUY, and
stopLoss = p + 1.5 a, takeProfit = p - 2.0 a for SELL, each rounded to five
decimal places; in particular BUY at p = 100, a = 2 gives (97, 104), and
SELL gives (103, 96). -/
theorem calculate_sl_tp_spec :
    (∀ p a : ℚ,
      calculate_sl_tp p "BUY" a = (round5 (p - 1.5 * a), round5 (p + 2.0 * a)) ∧
      calculate_sl_tp p "SELL" a = (round5 (p + 1.5 * a), round5 (p - 2.0 * a))) ∧
    calculate_sl_tp 100 "BUY" 2 = (97, 104) ∧
    calculate_sl_tp 100 "SELL" 2 = (103, 96) := by
  refine ⟨fun p a => ⟨?_, ?_⟩, ?_, ?_⟩
  · rw [calculate_sl_tp_buy, ATR_SL_MULTIPLIER, ATR_TP_MULTIPLIER, mul_comm]
    norm_num [mul_comm]
  · rw [calculate_sl_tp_sell, ATR_SL_MULTIPLIER, ATR_TP_MULTIPLIER]
    norm_num [mul_comm]
  · rw [calculate_sl_tp_buy]
    norm_num [round5, roundHalfEven, ATR_SL_MULTIPLIER, ATR_TP_MULTIPLIER]
  · rw [calculate_sl_tp_sell]
    norm_num [round5, roundHalfEven, ATR_SL_MULTIPLIER, ATR_TP_MULTIPLIER]

/-- C3: the derived signal is BUY iff RSI < 35 and low is at most the lower
band; SELL iff that fails, RSI > 65 and high is at least the upper band;
NONE otherwise.  Moreover the signal of a bar window reads low and high off
the same latest bar of the window (not the close). -/
theorem signal_thresholds :
    (∀ r low lower high upper : ℚ,
      (deriveSignal r low lower high upper = Signal.BUY ↔ r < 35 ∧ low ≤ lower) ∧
      (deriveSignal r low lower high upper = Signal.SELL ↔
        ¬(r < 35 ∧ low ≤ lower) ∧ r > 65 ∧ high ≥ upper) ∧
      (deriveSignal r low lower high upper = Signal.NONE ↔
        ¬(r < 35 ∧ low ≤ lower) ∧ ¬(r > 65 ∧ high ≥ upper))) ∧
    (∀ (bars : List Bar) (b : Bar), bars.getLast? = some b →
      signalOfBars bars = strategySignal (rsiLast (bars.map Bar.close)) b.low
        (bbLower (bars.map Bar.close)) b.high (bbUpper (bars.map Bar.close))) := by
  constructor
  · intro r low lower high upper
    unfold deriveSignal
    by_cases h1 : r < 35 ∧ low ≤ lower <;> by_cases h2 : r > 65 ∧ high ≥ upper <;>
      simp [h1, h2]
  · intro bars b hb
    unfold signalOfBars
    rw [hb]
    rfl

/-- C3 witness: the latest-bar clause of signal_thresholds applied to a
concrete two-bar window with last bar high 4, low 5. -/
theorem signal_thresholds_witness :
    signalOfBars [⟨1, 2, 3⟩, ⟨4, 5, 6⟩]
      = strategySignal (rsiLast ([(⟨1, 2, 3⟩ : Bar), ⟨4, 5, 6⟩].map Bar.close)) 5
        (bbLower ([(⟨1, 2, 3⟩ : Bar), ⟨4, 5, 6⟩].map Bar.close)) 4
        (bbUpper ([(⟨1, 2, 3⟩ : Bar), ⟨4, 5, 6⟩].map Bar.close)) :=
  signal_thresholds.2 [⟨1, 2, 3⟩, ⟨4, 5, 6⟩] ⟨4, 5, 6⟩ rfl

/-- C4: with last_trade_close_time = t cached, the cooldown check rejects
exactly when fewer than 600 seconds have elapsed; a check 599 seconds after
the close rejects and a check exactly 600 seconds after it passes. -/
theorem cooldown_boundary :
    (∀ (sym : String) (now : ℚ) (hist : Option (List Deal)) (n m : Nat)
        (r : Option String) (t : ℚ),
      (is_enough_time_since_last_trade sym now hist ⟨n, m, some t, r⟩).skip = true ↔
        now - t < 600) ∧
    (is_enough_time_since_last_trade "X" 599 none ⟨0, 0, some 0, none⟩).skip = true ∧
    (is_enough_time_since_last_trade "X" 600 none ⟨0, 0, some 0, none⟩).skip = false := by
  refine ⟨?_, ?_, ?_⟩
  · intro sym now hist n m r t
    rw [cooldown_skip_of_set, decide_eq_true_eq, div_lt_iff₀ (by norm_num : (0:ℚ) < 60)]
    norm_num
  · rw [cooldown_skip_of_set]
    norm_num
  · rw [cooldown_skip_of_set]
    norm_num

/-- C5 (amended): the deal-history lookup runs exactly when
last_trade_close_time is unset at the start of the check; a set timestamp is
reused untouched and suppresses the lookup, and after a check that started
unset the timestamp holds exactly what the lookup found (so a failed lookup
leaves it unset). -/
theorem history_lookup_iff_unset :
    ∀ (sym : String) (now : ℚ) (hist : Option (List Deal)) (n m : Nat)
      (r : Option String) (t : ℚ),
      (is_enough_time_since_last_trade sym now hist ⟨n, m, none, r⟩).queriedHistory = true ∧
      (is_enough_time_since_last_trade sym now hist ⟨n, m, some t, r⟩).queriedHistory = false ∧
      (is_enough_time_since_last_trade sym now hist ⟨n, m, some t, r⟩).state.last_trade_close_time
        = some t ∧
      (is_enough_time_since_last_trade sym now hist ⟨n, m, none, r⟩).state.last_trade_close_time
        = lookupLastClose sym hist := by
  intro sym now hist n m r t
  refine ⟨?_, ?_, ?_, ?_⟩
  · simp only [is_enough_time_since_last_trade]
    split <;> split <;> simp_all
  · simp only [is_enough_time_since_last_trade]
    split <;> simp_all
  · simp only [is_enough_time_since_last_trade]
    split <;> simp_all
  · simp only [is_enough_time_since_last_trade]
    cases hlk : lookupLastClose sym hist with
    | none => simp [hlk]
    | some u =>
      simp only [hlk]
      split <;> simp_all

/-- C5 counterexample: with an empty deal history, two successive cooldown
checks for the same symbol both query the deal history: the lookup is not
performed at most once per process lifetime when no closing deal is found. -/
theorem history_requery_counterexample :
    (is_enough_time_since_last_trade "UK100" 86400 (some []) ⟨0, 0, none, none⟩).queriedHistory
        = true ∧
    (is_enough_time_since_last_trade "UK100" 86700 (some [])
        (is_enough_time_since_last_trade "UK100" 86400 (some [])
          ⟨0, 0, none, none⟩).state).queriedHistory = true := by
  constructor <;> rfl

/-- C6: when the gateway reports an open position for the instrument and the
upstream gates pass, the run submits no order, sets the skip reason to
"Position Open", and leaves the trade counter unchanged; the result still
carries the computed signal, showing the check runs after signal
computation. -/
theorem position_open_skip (sym : String) (cfg : SymbolConfig) (hist : Option (List Deal))
    (bars : List Bar) (p : OpenPosition) (ps : List OpenPosition) (tick : Option Tick)
    (info : Option SymbolInfo) (ores : Option OrderResult) (now : ℚ) (st : SymbolState)
    (hbias : cfg.daily_bias ≠ "NONE")
    (hcd : (is_enough_time_since_last_trade sym now hist st).skip = false)
    (hlen : 50 ≤ bars.length) :
    run_symbol_analysis sym cfg ⟨hist, some bars, p :: ps, tick, info, ores⟩ now st
      = ⟨{ (is_enough_time_since_last_trade sym now hist st).state with
            last_skipped_reason := some "Position Open" },
          some (signalOfBars bars), none, 0, 0⟩ ∧
    (run_symbol_analysis sym cfg ⟨hist, some bars, p :: ps, tick, info, ores⟩ now st).state.trades_executed
      = st.trades_executed := by
  have hrun : run_symbol_analysis sym cfg ⟨hist, some bars, p :: ps, tick, info, ores⟩ now st
      = ⟨{ (is_enough_time_since_last_trade sym now hist st).state with
            last_skipped_reason := some "Position Open" },
          some (signalOfBars bars), none, 0, 0⟩ := by
    unfold run_symbol_analysis
    rw [if_neg hbias]
    simp only [hcd, Bool.false_eq_true, if_false, if_neg (by omega : ¬bars.length < 50)]
  refine ⟨hrun, ?_⟩
  rw [hrun]
  exact (cooldown_preserves_fields sym now hist st).1

/-- C6 witness: position_open_skip on a concrete 50-bar cycle with one open
position. -/
theorem position_open_skip_witness :
    (run_symbol_analysis "X" ⟨1, "BOTH"⟩ ⟨none, some w6Bars, [⟨1⟩], none, none, none⟩ 0
        ⟨0, 0, none, none⟩).state.last_skipped_reason = some "Position Open" ∧
    (run_symbol_analysis "X" ⟨1, "BOTH"⟩ ⟨none, some w6Bars, [⟨1⟩], none, none, none⟩ 0
        ⟨0, 0, none, none⟩).submitted = none ∧
    (run_symbol_analysis "X" ⟨1, "BOTH"⟩ ⟨none, some w6Bars, [⟨1⟩], none, none, none⟩ 0
        ⟨0, 0, none, none⟩).signalComputed = some (signalOfBars w6Bars) := by
  have h := position_open_skip "X" ⟨1, "BOTH"⟩ none w6Bars ⟨1⟩ [] none none none 0
    ⟨0, 0, none, none⟩ (by decide) rfl (by decide)
  rw [h.1]
  exact ⟨rfl, rfl, rfl⟩

/-- C7: execute_trade performs exactly one order_send submission; on the
success retcode it increments trades_executed by exactly one and emits
exactly one execution notification; on any other result (null included) the
state is unchanged and no notification is emitted.  A whole analysis pass
performs at most one submission, so no second attempt happens in a cycle. -/
theorem execute_trade_result_handling :
    (∀ (sym ty : String) (price vol sl tp atr : ℚ) (info : Option SymbolInfo)
        (res : Option OrderResult) (st : SymbolState),
      ((execute_trade sym ty price vol sl tp atr info res st).submissions = 1) ∧
      (∀ r, res = some r → r.retcode = TRADE_RETCODE_DONE →
        (execute_trade sym ty price vol sl tp atr info res st).state.trades_executed
            = st.trades_executed + 1 ∧
        (execute_trade sym ty price vol sl tp atr info res st).notifications = 1) ∧
      ((∀ r, res = some r → r.retcode ≠ TRADE_RETCODE_DONE) →
        (execute_trade sym ty price vol sl tp atr info res st).state = st ∧
        (execute_trade sym ty price vol sl tp atr info res st).notifications = 0)) ∧
    (∀ (sym : String) (cfg : SymbolConfig) (gw : Gateway) (now : ℚ) (st : SymbolState),
      (run_symbol_analysis sym cfg gw now st).submissions ≤ 1) := by
  refine ⟨?_, run_submissions_le_one⟩
  intro sym ty price vol sl tp atr info res st
  refine ⟨execute_trade_submissions sym ty price vol sl tp atr info res st, ?_, ?_⟩
  · intro r hr hcode
    subst hr
    simp [execute_trade, hcode]
  · intro h
    cases res with
    | none => exact ⟨rfl, rfl⟩
    | some r =>
      have hne := h r rfl
      simp [execute_trade, hne]

/-- C7 witness: a successful submission increments the counter to 1; a
rejected submission emits no notification. -/
theorem execute_trade_result_handling_witness :
    (execute_trade "A" "BUY" 1 1 1 1 1 none (some ⟨10009, "ok"⟩)
        ⟨0, 0, none, none⟩).state.trades_executed = 1 ∧
    (execute_trade "A" "BUY" 1 1 1 1 1 none (some ⟨1, "err"⟩)
        ⟨0, 0, none, none⟩).notifications = 0 := by
  have h1 := execute_trade_result_handling.1 "A" "BUY" 1 1 1 1 1 none
    (some ⟨10009, "ok"⟩) ⟨0, 0, none, none⟩
  have h2 := execute_trade_result_handling.1 "A" "BUY" 1 1 1 1 1 none
    (some ⟨1, "err"⟩) ⟨0, 0, none, none⟩
  refine ⟨(h1.2.1 ⟨10009, "ok"⟩ rfl rfl).1, (h2.2.2 ?_).2⟩
  intro r hr
  cases hr
  decide

/-- C8: when the bar fetch returns nothing or fewer than 50 bars and the
upstream gates pass, the run returns with no signal computed, no order
submitted, and the state unchanged apart from the cooldown backfill: in
particular the skip is silent (the skip reason is untouched). -/
theorem insufficient_bars_skip (sym : String) (cfg : SymbolConfig)
    (hist : Option (List Deal)) (rates : Option (List Bar))
    (positions : List OpenPosition) (tick : Option Tick) (info : Option SymbolInfo)
    (ores : Option OrderResult) (now : ℚ) (st : SymbolState)
    (hbias : cfg.daily_bias ≠ "NONE")
    (hcd : (is_enough_time_since_last_trade sym now hist st).skip = false)
    (hshort : ∀ bars, rates = some bars → bars.length < 50) :
    run_symbol_analysis sym cfg ⟨hist, rates, positions, tick, info, ores⟩ now st
      = ⟨(is_enough_time_since_last_trade sym now hist st).state, none, none, 0, 0⟩ ∧
    (run_symbol_analysis sym cfg ⟨hist, rates, positions, tick, info, ores⟩ now st).state.last_skipped_reason
      = st.last_skipped_reason ∧
    (run_symbol_analysis sym cfg ⟨hist, rates, positions, tick, info, ores⟩ now st).state.trades_executed
      = st.trades_executed := by
  have hrun : run_symbol_analysis sym cfg ⟨hist, rates, positions, tick, info, ores⟩ now st
      = ⟨(is_enough_time_since_last_trade sym now hist st).state, none, none, 0, 0⟩ := by
    unfold run_symbol_analysis
    rw [if_neg hbias]
    simp only [hcd, Bool.false_eq_true, if_false]
    cases rates with
    | none => rfl
    | some bars =>
      simp only [if_pos (hshort bars rfl)]
  refine ⟨hrun, ?_, ?_⟩ <;> rw [hrun]
  · exact (cooldown_preserves_fields sym now hist st).2.2
  · exact (cooldown_preserves_fields sym now hist st).1

/-- C8 witness: insufficient_bars_skip on a cycle whose bar fetch failed. -/
theorem insufficient_bars_skip_witness :
    (run_symbol_analysis "X" ⟨1, "BOTH"⟩ ⟨none, none, [], none, none, none⟩ 0
        ⟨0, 0, none, none⟩).signalComputed = none ∧
    (run_symbol_analysis "X" ⟨1, "BOTH"⟩ ⟨none, none, [], none, none, none⟩ 0
        ⟨0, 0, none, none⟩).submitted = none ∧
    (run_symbol_analysis "X" ⟨1, "BOTH"⟩ ⟨none, none, [], none, none, none⟩ 0
        ⟨0, 0, none, none⟩).state.last_skipped_reason = none := by
  have h := insufficient_bars_skip "X" ⟨1, "BOTH"⟩ none none [] none none none 0
    ⟨0, 0, none, none⟩ (by decide) rfl (fun bars hb => nomatch hb)
  rw [h.1]
  exact ⟨rfl, rfl, rfl⟩

/-- C9: the claim asserts the RSI is defined and equal to 100 whenever the
smoothed average loss is zero.  On fifty constant closes the average loss is
zero but the average gain is zero too, so the quotient is the undefined 0/0
and the RSI is NaN rather than 100. -/
theorem rsi_undefined_on_flat :
    avgLossLast c9Closes = 0 ∧ rsiLast c9Closes = none := by
  constructor <;>
    norm_num [c9Closes, rsiLast, avgGainLast, avgLossLast, ewmLast, gainsOf,
      lossesOf, deltasOf, wsum, List.replicate, List.zipWith]

/-- C10: when the derived signal contradicts the daily bias (SELL under a
BUY bias, or BUY under a SELL bias) and every earlier gate passes, the run
submits no order, records no skip reason, and leaves the trade counter
unchanged: the top bias filter rejects only NONE and the directional
restriction bites only at the execution step. -/
theorem bias_mismatch_no_order (sym : String) (cfg : SymbolConfig)
    (hist : Option (List Deal)) (bars : List Bar) (tick : Tick)
    (info : Option SymbolInfo) (ores : Option OrderResult) (now : ℚ) (st : SymbolState)
    (hcd : (is_enough_time_since_last_trade sym now hist st).skip = false)
    (hlen : 50 ≤ bars.length)
    (hmm : (cfg.daily_bias = "BUY" ∧ signalOfBars bars = Signal.SELL) ∨
           (cfg.daily_bias = "SELL" ∧ signalOfBars bars = Signal.BUY)) :
    run_symbol_analysis sym cfg ⟨hist, some bars, [], some tick, info, ores⟩ now st
      = ⟨(is_enough_time_since_last_trade sym now hist st).state,
          some (signalOfBars bars), none, 0, 0⟩ ∧
    (run_symbol_analysis sym cfg ⟨hist, some bars, [], some tick, info, ores⟩ now st).state.last_skipped_reason
      = st.last_skipped_reason ∧
    (run_symbol_analysis sym cfg ⟨hist, some bars, [], some tick, info, ores⟩ now st).state.trades_executed
      = st.trades_executed := by
  have hbias : cfg.daily_bias ≠ "NONE" := by
    rcases hmm with ⟨h, _⟩ | ⟨h, _⟩ <;> rw [h] <;> decide
  have hrun : run_symbol_analysis sym cfg ⟨hist, some bars, [], some tick, info, ores⟩ now st
      = ⟨(is_enough_time_since_last_trade sym now hist st).state,
          some (signalOfBars bars), none, 0, 0⟩ := by
    unfold run_symbol_analysis
    rw [if_neg hbias]
    simp only [hcd, Bool.false_eq_true, if_false, if_neg (by omega : ¬bars.length < 50)]
    rcases hmm with ⟨hb, hs⟩ | ⟨hb, hs⟩ <;>
      simp [hb, hs]
  refine ⟨hrun, ?_, ?_⟩ <;> rw [hrun]
  · exact (cooldown_preserves_fields sym now hist st).2.2
  · exact (cooldown_preserves_fields sym now hist st).1

/-- C10 witness: a SELL signal under a BUY bias on a concrete cycle whose
order result would have accepted a trade: nothing is submitted and no
reason is recorded. -/
theorem bias_mismatch_no_order_witness :
    (run_symbol_analysis "X" ⟨1, "BUY"⟩ ⟨none, some w10Bars, [], some ⟨100, 100⟩, none,
        some ⟨10009, "done"⟩⟩ 0 ⟨0, 0, none, none⟩).submitted = none ∧
    (run_symbol_analysis "X" ⟨1, "BUY"⟩ ⟨none, some w10Bars, [], some ⟨100, 100⟩, none,
        some ⟨10009, "done"⟩⟩ 0 ⟨0, 0, none, none⟩).state.trades_executed = 0 ∧
    (run_symbol_analysis "X" ⟨1, "BUY"⟩ ⟨none, some w10Bars, [], some ⟨100, 100⟩, none,
        some ⟨10009, "done"⟩⟩ 0 ⟨0, 0, none, none⟩).state.last_skipped_reason = none := by
  have h := bias_mismatch_no_order "X" ⟨1, "BUY"⟩ none w10Bars ⟨100, 100⟩ none
    (some ⟨10009, "done"⟩) 0 ⟨0, 0, none, none⟩ rfl (by decide)
    (Or.inl ⟨rfl, w10Bars_signal⟩)
  rw [h.1]
  exact ⟨rfl, rfl, rfl⟩
